import Mathlib

/-!
Shallow embedding of the authentication core of the repository
(`src/db.py` and `src/backend/main.py`): bcrypt-backed password hashing,
JWT issuance/validation, and the Postgres-backed user store, together with
the HTTP layer's `get_current_user` dependency.

Modelling conventions:
* Python strings are Lean `String`; `str.lower()` / `str.strip()` are
  modelled over the character list (ASCII case folding, Python whitespace).
* bcrypt (`bcrypt.hashpw(password.encode("utf-8"), bcrypt.gensalt())`)
  truncates its input to the first 72 bytes of the UTF-8 encoding, a
  documented property of the library.  The EksBlowfish digest itself is
  modelled as an ideal (collision-free) one-way function: the digest value
  is represented by the truncated input, and the salt is stored alongside
  it exactly as in the modular-crypt-format output.  Fresh salts are
  supplied by the environment as an explicit argument.
* JWT signing (`jwt.encode` / `jwt.decode` with HS256) is modelled with an
  ideal unforgeable MAC: the signature value is represented by the triple
  (secret, algorithm, payload), so two signatures are equal exactly when
  key, algorithm and signed payload agree.  A wire token is either a
  parsed (header, payload, signature) triple or a malformed blob.
* The users table is a list of rows; `uuid_generate_v4()` and `NOW()` are
  supplied by the environment as explicit arguments (`newId`, `now`).
  `RealDictCursor` rows returned to callers are association lists of
  column name to value, built exactly from the SQL column lists.
* The storage layer's possible failure of the INSERT statement (unique
  violation under a race, storage error) is an explicit `insertFault`
  argument; `none` is normal operation.
* Connection-pool usage is modelled by the sequence of `getconn`/`putconn`
  events each operation emits on each control path.
-/

namespace AuthCore

/-- Python `str.lower()` on one character (ASCII fold, as relevant here). -/
def lowerChar (c : Char) : Char :=
  if ("A".front ≤ c ∧ c ≤ "Z".front) then Char.ofNat (c.toNat + 32) else c

/-- Python `email.lower()`. -/
def str_lower (s : String) : String := String.mk (s.data.map lowerChar)

/-- Python whitespace recognised by `str.strip()`. -/
def isPySpace (c : Char) : Bool :=
  c.toNat = 32 || c.toNat = 9 || c.toNat = 10 || c.toNat = 13 || c.toNat = 11 || c.toNat = 12

/-- Python `full_name.strip()`. -/
def str_strip (s : String) : String :=
  String.mk (((s.data.dropWhile isPySpace).reverse.dropWhile isPySpace).reverse)

/-- UTF-8 encoding of one character, as a list of byte values. -/
def charUtf8 (c : Char) : List Nat :=
  let n := c.toNat
  if n < 128 then [n]
  else if n < 2048 then [192 + n / 64, 128 + n % 64]
  else if n < 65536 then [224 + n / 4096, 128 + (n / 64) % 64, 128 + n % 64]
  else [240 + n / 262144, 128 + (n / 4096) % 64, 128 + (n / 64) % 64, 128 + n % 64]

/-- Python `password.encode("utf-8")` as a list of byte values. -/
def strBytes (s : String) : List Nat := (s.data.map charUtf8).flatten

/-- The part of the password bcrypt actually processes: the first 72 bytes
of the UTF-8 encoding (bcrypt's documented truncation). -/
def bcryptInput (p : String) : List Nat := (strBytes p).take 72

/-- A bcrypt digest string: embedded salt plus the one-way digest of the
truncated password (ideal collision-free digest, see module comment). -/
structure BHash where
  salt : Nat
  digest : List Nat
deriving DecidableEq, Repr

/-- `AuthService.hash_password`:
`bcrypt.hashpw(password.encode("utf-8"), bcrypt.gensalt()).decode("utf-8")`,
with the fresh salt supplied explicitly. -/
def hash_password (salt : Nat) (password : String) : BHash :=
  ⟨salt, bcryptInput password⟩

/-- `AuthService.verify_password`:
`bcrypt.checkpw(password.encode("utf-8"), hashed_password.encode("utf-8"))`
recomputes with the embedded salt and compares. -/
def verify_password (password : String) (hashed_password : BHash) : Bool :=
  decide (hash_password hashed_password.salt password = hashed_password)

/-- The JWT claim set built by `AuthService.create_access_token`:
`{"user_id": ..., "email": ..., "iat": ..., "exp": ..., "type": "access"}`. -/
structure Claims where
  user_id : String
  email : String
  iat : Nat
  exp : Nat
  typ : String
deriving DecidableEq, Repr

/-- An HMAC signature value, in the ideal-MAC model: the signature is
determined by, and determines, the key, algorithm and signed payload. -/
structure Sig where
  key : Nat
  alg : String
  payload : Claims
deriving DecidableEq, Repr

/-- Signing a serialized payload with the server secret (ideal MAC). -/
def sign (secret : Nat) (alg : String) (payload : Claims) : Sig :=
  ⟨secret, alg, payload⟩

/-- A token on the wire: either a structurally valid (header.payload.sig)
triple or a malformed blob that fails parsing. -/
inductive TokenWire where
  | malformed (raw : String)
  | parsed (alg : String) (payload : Claims) (sig : Sig)
deriving DecidableEq, Repr

/-- `jwt.encode(payload, JWT_SECRET_KEY, algorithm=JWT_ALGORITHM)`. -/
def jwt_encode (payload : Claims) (secret : Nat) (alg : String) : TokenWire :=
  .parsed alg payload (sign secret alg payload)

/-- The two failure classes the caller of `jwt.decode` observes:
`jwt.ExpiredSignatureError` (a valid signature whose `exp` claim has
passed) and every other `jwt.InvalidTokenError` (malformed structure,
disallowed algorithm, bad signature or wrong secret). -/
inductive JwtError where
  | expiredSignature
  | invalidToken
deriving DecidableEq, Repr

/-- `jwt.decode(token, JWT_SECRET_KEY, algorithms=[JWT_ALGORITHM])`:
parse, check the header algorithm against the allowlist, verify the
signature, then validate the `exp` claim against the clock. -/
def jwt_decode (tok : TokenWire) (secret : Nat) (algs : List String) (now : Nat) :
    Except JwtError Claims :=
  match tok with
  | .malformed _ => .error .invalidToken
  | .parsed alg payload sig =>
    if ¬ algs.contains alg then .error .invalidToken
    else if sig ≠ sign secret alg payload then .error .invalidToken
    else if payload.exp ≤ now then .error .expiredSignature
    else .ok payload

/-- The bundle returned by `AuthService.create_access_token`. -/
structure TokenBundle where
  access_token : TokenWire
  token_type : String
  expires_in : Nat
deriving DecidableEq, Repr

/-- `AuthService.create_access_token(user_id, email)`: claims carry
`iat = now`, `exp = now + JWT_EXPIRATION_MINUTES` minutes,
`type = "access"`; the bundle reports `expires_in` in seconds. -/
def create_access_token (user_id email : String) (secret : Nat) (alg : String)
    (expirationMinutes : Nat) (now : Nat) : TokenBundle :=
  let expires_at := now + expirationMinutes * 60
  let payload : Claims := ⟨user_id, email, now, expires_at, "access"⟩
  ⟨jwt_encode payload secret alg, "bearer", expirationMinutes * 60⟩

/-- `AuthService.decode_token`: maps `jwt.ExpiredSignatureError` to
`ValueError("Token has expired")` and `jwt.InvalidTokenError` to
`ValueError("Invalid token")` (`ExpiredSignatureError` is the more
specific class and its handler comes first). -/
def decode_token (tok : TokenWire) (secret : Nat) (alg : String) (now : Nat) :
    Except String Claims :=
  match jwt_decode tok secret [alg] now with
  | .ok payload => .ok payload
  | .error .expiredSignature => .error "Token has expired"
  | .error .invalidToken => .error "Invalid token"

/-- A SQL value as it appears in a `RealDictCursor` row. -/
inductive Val where
  | s (v : String)
  | b (v : Bool)
  | n (v : Nat)
  | h (v : BHash)
deriving DecidableEq, Repr

/-- A `RealDictCursor` row: association list of column name to value. -/
abbrev RowDict := List (String × Val)

/-- One row of the `users` table
(id, full_name, email, password_hash, is_active, created_at, updated_at). -/
structure UserRow where
  id : String
  full_name : String
  email : String
  password_hash : BHash
  is_active : Bool
  created_at : Nat
  updated_at : Nat
deriving DecidableEq, Repr

/-- The persistent store: the `users` table. -/
structure DB where
  users : List UserRow
deriving DecidableEq, Repr

/-- The dict produced by
`SELECT id, full_name, email, password_hash, is_active, created_at, updated_at`. -/
def rowFull (u : UserRow) : RowDict :=
  [("id", .s u.id), ("full_name", .s u.full_name), ("email", .s u.email),
   ("password_hash", .h u.password_hash), ("is_active", .b u.is_active),
   ("created_at", .n u.created_at), ("updated_at", .n u.updated_at)]

/-- The dict produced by
`SELECT id, full_name, email, is_active, created_at, updated_at` (and by
the `RETURNING` clause of the INSERT, which lists the same columns). -/
def rowPublic (u : UserRow) : RowDict :=
  [("id", .s u.id), ("full_name", .s u.full_name), ("email", .s u.email),
   ("is_active", .b u.is_active),
   ("created_at", .n u.created_at), ("updated_at", .n u.updated_at)]

/-- Dict key membership. -/
def hasKey (r : RowDict) (k : String) : Bool := r.any (fun kv => kv.1 == k)

/-- Dict lookup. -/
def lookupVal (r : RowDict) (k : String) : Option Val :=
  (r.find? (fun kv => kv.1 == k)).map Prod.snd

/-- `SELECT id FROM users WHERE email = %s` with the lowercased email:
matches rows regardless of `is_active`. -/
def findByEmail (db : DB) (e : String) : Option UserRow :=
  db.users.find? (fun u => u.email == e)

/-- `SELECT ... FROM users WHERE email = %s AND is_active = TRUE`. -/
def findActiveByEmail (db : DB) (e : String) : Option UserRow :=
  db.users.find? (fun u => u.email == e && u.is_active)

/-- `SELECT ... FROM users WHERE id = %s AND is_active = TRUE`. -/
def findActiveById (db : DB) (i : String) : Option UserRow :=
  db.users.find? (fun u => u.id == i && u.is_active)

/-- `UserService.create_user(full_name, email, password)`.
The fresh UUID `newId`, the database clock `now` and the bcrypt salt are
supplied by the environment; `insertFault` injects a failure of the INSERT
statement (`none` is normal operation).  Returns the caller-visible result
(`ValueError` message or the `RETURNING` dict) together with the state of
the `users` table after the call: the `except` branch runs
`connection.rollback()` before re-raising, so every error path leaves the
table as it was. -/
def create_user (db : DB) (full_name email password : String) (newId : String)
    (salt : Nat) (now : Nat) (insertFault : Option String) :
    Except String RowDict × DB :=
  match findByEmail db (str_lower email) with
  | some _ =>
    -- existing_user is truthy: raise ValueError("Email already registered");
    -- rollback discards nothing and the table is unchanged
    (.error "Email already registered", db)
  | none =>
    let password_hash := hash_password salt password
    match insertFault with
    | some msg =>
      -- the INSERT raises: connection.rollback(); raise e
      (.error msg, db)
    | none =>
      let row : UserRow :=
        ⟨newId, str_strip full_name, str_lower email, password_hash, true, now, now⟩
      -- INSERT ... RETURNING ...; connection.commit()
      (.ok (rowPublic row), ⟨db.users ++ [row]⟩)

/-- `UserService.authenticate_user(email, password)`: fetch the active user
by lowercased email; on no row or failed password check return `None`;
otherwise return the row dict with the `password_hash` key deleted. -/
def authenticate_user (db : DB) (email password : String) : Option RowDict :=
  match findActiveByEmail db (str_lower email) with
  | none => none
  | some user =>
    if ¬ verify_password password user.password_hash then none
    else some ((rowFull user).eraseP (fun kv => kv.1 == "password_hash"))

/-- `UserService.get_user_by_id(user_id)`. -/
def get_user_by_id (db : DB) (user_id : String) : Option RowDict :=
  (findActiveById db user_id).map rowPublic

/-- `UserService.get_user_by_email(email)`. -/
def get_user_by_email (db : DB) (email : String) : Option RowDict :=
  (findActiveByEmail db (str_lower email)).map rowPublic

/-- Outcome of a FastAPI dependency/endpoint: a value or an
`HTTPException(status_code, detail)`. -/
inductive HttpOutcome where
  | ok (user : RowDict)
  | error (statusCode : Nat) (detail : String)
deriving DecidableEq, Repr

/-- `get_current_user` in `src/backend/main.py`: decode the bearer token,
reject an empty/missing `user_id` claim, then look the user up by id.
A `ValueError` from `decode_token` is caught and surfaced as
`401, str(e)`.  The `HTTPException`s raised inside the `try` block
("Invalid token" for a falsy user_id, "User not found" for a failed
lookup) are themselves caught by the blanket `except Exception` handler
and re-raised as `401, "Authentication failed"`. -/
def get_current_user (db : DB) (tok : TokenWire) (secret : Nat) (alg : String)
    (now : Nat) : HttpOutcome :=
  match decode_token tok secret alg now with
  | .error e => .error 401 e
  | .ok payload =>
    if payload.user_id == "" then .error 401 "Authentication failed"
    else
      match get_user_by_id db payload.user_id with
      | none => .error 401 "Authentication failed"
      | some user => .ok user

/-- A connection-pool event. -/
inductive PoolEv where
  | getconn
  | putconn
deriving DecidableEq, Repr

/-- A trace is balanced when every acquired connection was returned. -/
def balanced (t : List PoolEv) : Bool :=
  t.count .getconn == t.count .putconn

/-- Pool events of `Database.init_tables`, by control path.  The body runs
inside a bare `try`/`except` with no `finally`: `return_connection` is
executed only after the DDL statement and the commit succeed, so when the
`execute` (or commit) raises, the function re-raises without returning the
connection. -/
def init_tables_trace (executeFault : Bool) : List PoolEv :=
  if executeFault then [.getconn] else [.getconn, .putconn]

/-- Pool events of each `UserService` operation (`create_user`,
`authenticate_user`, `get_user_by_id`, `get_user_by_email`), by control
path.  Each acquires one connection, runs its body inside `try ... finally:
cursor.close(); Database.return_connection(connection)`, so the connection
is returned whether the body returns or raises. -/
def user_service_op_trace (_bodyRaises : Bool) : List PoolEv :=
  let acquire := [PoolEv.getconn]
  -- whether the body returns normally or raises, it performs no pool
  -- operations itself, and the finally clause then returns the connection
  let body : List PoolEv := []
  let release := [PoolEv.putconn]
  acquire ++ body ++ release

/-! ## Helper lemmas -/

/-- Searching an append skips a first part in which nothing matches. -/
theorem find?_append_of_none {α : Type} {p : α → Bool} {l₁ l₂ : List α}
    (h : l₁.find? p = none) : (l₁ ++ l₂).find? p = l₂.find? p := by
  induction l₁ with
  | nil => rfl
  | cons a l ih =>
    have hall := List.find?_eq_none.mp h
    have ha : ¬ p a = true := hall a (by simp)
    have hl : l.find? p = none :=
      List.find?_eq_none.mpr (fun x hx => hall x (by simp [hx]))
    simpa [List.find?_cons_of_neg _ ha] using ih hl

/-! ## Claim theorems -/

/-- C1, counterexample: two distinct passwords that agree on their first 72
UTF-8 bytes (72 copies of "a" versus 73 copies) cross-verify, because
bcrypt truncates its input to 72 bytes.  So `verify_password` does have
false positives for some distinct pairs. -/
theorem c1_truncation_false_positive :
    String.mk (List.replicate 72 (Char.ofNat 97))
        ≠ String.mk (List.replicate 73 (Char.ofNat 97))
      ∧ verify_password (String.mk (List.replicate 72 (Char.ofNat 97)))
          (hash_password 0 (String.mk (List.replicate 73 (Char.ofNat 97)))) = true := by
  constructor
  · decide
  · decide

/-- C1, amended: for every password `p` and salt, verification of `p`
against `hash_password` of `p` succeeds; and verification of `p1` against a
hash of `p2` fails whenever `p1` and `p2` differ within the first 72 bytes
of their UTF-8 encodings (the part of the password bcrypt processes). -/
theorem c1_verify_round_trip :
    (∀ (salt : Nat) (p : String),
      verify_password p (hash_password salt p) = true)
    ∧ (∀ (salt : Nat) (p1 p2 : String), bcryptInput p1 ≠ bcryptInput p2 →
        verify_password p1 (hash_password salt p2) = false) := by
  constructor
  · intro salt p
    simp [verify_password, hash_password]
  · intro salt p1 p2 hne
    simp only [verify_password, hash_password, decide_eq_false_iff_not]
    intro hcontra
    exact hne (congrArg BHash.digest hcontra)

/-- C1 witness: instantiating the amended statement at salt 0 and the
passwords "a" and "b". -/
theorem c1_verify_round_trip_witness :
    bcryptInput "a" ≠ bcryptInput "b"
      ∧ verify_password "a" (hash_password 0 "a") = true
      ∧ verify_password "a" (hash_password 0 "b") = false :=
  ⟨by decide, c1_verify_round_trip.1 0 "a", c1_verify_round_trip.2 0 "a" "b" (by decide)⟩

/-- C2: with no injected storage fault, `create_user` raises
`ValueError("Email already registered")` exactly when some row whose
stored email equals the lowercased input email already exists; otherwise
it appends exactly one new row and returns that row's `RETURNING` dict. -/
theorem c2_create_user_duplicate_check :
    ∀ (db : DB) (full_name email password newId : String) (salt now : Nat),
      (((create_user db full_name email password newId salt now none).1
          = Except.error "Email already registered")
        ↔ ∃ u ∈ db.users, u.email = str_lower email)
      ∧ (∀ (r : RowDict) (db2 : DB),
          create_user db full_name email password newId salt now none
              = (Except.ok r, db2) →
          db2.users = db.users ++ [UserRow.mk newId (str_strip full_name)
              (str_lower email) (hash_password salt password) true now now]
            ∧ r = rowPublic (UserRow.mk newId (str_strip full_name)
              (str_lower email) (hash_password salt password) true now now)) := by
  intro db full_name email password newId salt now
  cases h : findByEmail db (str_lower email) with
  | some u =>
    refine ⟨⟨fun _ => ⟨u, List.mem_of_find?_eq_some h, ?_⟩, fun _ => ?_⟩, ?_⟩
    · simpa using List.find?_some h
    · simp [create_user, h]
    · intro r db2 heq
      simp [create_user, h] at heq
  | none =>
    refine ⟨⟨fun hcontra => ?_, fun hex => ?_⟩, ?_⟩
    · simp [create_user, h] at hcontra
    · obtain ⟨u, hu, he⟩ := hex
      have hnone := List.find?_eq_none.mp h u hu
      simp [he] at hnone
    · intro r db2 heq
      simp only [create_user, h] at heq
      obtain ⟨h1, h2⟩ := Prod.mk.injEq .. ▸ heq
      refine ⟨?_, (Except.ok.injEq .. ▸ h1).symm⟩
      exact congrArg DB.users h2.symm

/-- C2 witness: on a store already holding ada@x.com the call fails with
"Email already registered"; on the empty store it inserts one row. -/
theorem c2_create_user_duplicate_check_witness :
    ((create_user (DB.mk [UserRow.mk "uid-1" "Ada" "ada@x.com"
          (hash_password 0 "s3cret!") true 0 0])
        "Ada" "ADA@X.COM" "other" "uid-2" 1 5 none).1
        = Except.error "Email already registered")
    ∧ (create_user (DB.mk []) "Ada" "ADA@X.COM" "s3cret!" "uid-1" 0 0 none
        = (Except.ok (rowPublic (UserRow.mk "uid-1" "Ada" "ada@x.com"
            (hash_password 0 "s3cret!") true 0 0)),
           DB.mk [UserRow.mk "uid-1" "Ada" "ada@x.com"
            (hash_password 0 "s3cret!") true 0 0]))
    ∧ (DB.mk []).users ++ [UserRow.mk "uid-1" "Ada" "ada@x.com"
          (hash_password 0 "s3cret!") true 0 0]
        = [UserRow.mk "uid-1" "Ada" "ada@x.com" (hash_password 0 "s3cret!") true 0 0] := by
  refine ⟨?_, ?_, rfl⟩
  · exact (c2_create_user_duplicate_check (DB.mk [UserRow.mk "uid-1" "Ada" "ada@x.com"
        (hash_password 0 "s3cret!") true 0 0]) "Ada" "ADA@X.COM" "other" "uid-2" 1 5).1.mpr
      ⟨UserRow.mk "uid-1" "Ada" "ada@x.com" (hash_password 0 "s3cret!") true 0 0,
        by simp, by decide⟩
  · rfl

/-- C3: `authenticate_user` returns `None` both when no active user with
the lowercased email exists and when such a user exists but the password
fails verification against the stored hash — the same result in both
cases, so a caller cannot tell a nonexistent account from a wrong
password. -/
theorem c3_authenticate_user_indistinguishable :
    ∀ (db : DB) (email password : String),
      (findActiveByEmail db (str_lower email) = none →
        authenticate_user db email password = none)
      ∧ (∀ u, findActiveByEmail db (str_lower email) = some u →
          verify_password password u.password_hash = false →
          authenticate_user db email password = none) := by
  intro db email password
  constructor
  · intro h
    simp [authenticate_user, h]
  · intro u h hv
    simp [authenticate_user, h, hv]

/-- C3 witness: an unknown address and a wrong password against an
existing active account both yield `None`. -/
theorem c3_authenticate_user_indistinguishable_witness :
    (findActiveByEmail (DB.mk []) (str_lower "nobody@example.com") = none
      ∧ authenticate_user (DB.mk []) "nobody@example.com" "x" = none)
    ∧ (findActiveByEmail (DB.mk [UserRow.mk "uid-1" "Ada" "ada@x.com"
          (hash_password 0 "s3cret!") true 0 0]) (str_lower "ada@x.com")
        = some (UserRow.mk "uid-1" "Ada" "ada@x.com" (hash_password 0 "s3cret!") true 0 0)
      ∧ verify_password "wrong-password"
          (UserRow.mk "uid-1" "Ada" "ada@x.com" (hash_password 0 "s3cret!") true 0 0).password_hash
          = false
      ∧ authenticate_user (DB.mk [UserRow.mk "uid-1" "Ada" "ada@x.com"
          (hash_password 0 "s3cret!") true 0 0]) "ada@x.com" "wrong-password" = none) :=
  ⟨⟨by decide,
    (c3_authenticate_user_indistinguishable (DB.mk []) "nobody@example.com" "x").1 (by decide)⟩,
   ⟨by decide, by decide,
    (c3_authenticate_user_indistinguishable (DB.mk [UserRow.mk "uid-1" "Ada" "ada@x.com"
        (hash_password 0 "s3cret!") true 0 0]) "ada@x.com" "wrong-password").2
      (UserRow.mk "uid-1" "Ada" "ada@x.com" (hash_password 0 "s3cret!") true 0 0)
      (by decide) (by decide)⟩⟩

/-- C4: `decode_token` raises `ValueError("Token has expired")` exactly on
a structurally valid token, carrying the expected algorithm and a correct
signature, whose expiry has passed; it raises `ValueError("Invalid
token")` exactly when the structure, algorithm or signature check fails;
and the two messages are distinct, so the caller can tell them apart. -/
theorem c4_decode_token_error_taxonomy :
    ∀ (tok : TokenWire) (secret : Nat) (alg : String) (now : Nat),
      ((decode_token tok secret alg now = Except.error "Token has expired")
        ↔ ∃ payload sig, tok = TokenWire.parsed alg payload sig
            ∧ sig = sign secret alg payload ∧ payload.exp ≤ now)
      ∧ ((decode_token tok secret alg now = Except.error "Invalid token")
        ↔ ((∃ raw, tok = TokenWire.malformed raw)
          ∨ ∃ a payload sig, tok = TokenWire.parsed a payload sig
              ∧ (a ≠ alg ∨ sig ≠ sign secret a payload)))
      ∧ ("Token has expired" : String) ≠ "Invalid token" := by
  intro tok secret alg now
  refine ⟨?_, ?_, by decide⟩
  · cases tok with
    | malformed raw =>
      constructor
      · intro h
        simp [decode_token, jwt_decode] at h
      · rintro ⟨payload, sig, h, -⟩
        exact absurd h (by simp)
    | parsed a payload sig =>
      by_cases ha : a = alg
      · subst ha
        by_cases hs : sig = sign secret a payload
        · by_cases he : payload.exp ≤ now
          · constructor
            · intro _
              exact ⟨payload, sig, rfl, hs, he⟩
            · intro _
              simp [decode_token, jwt_decode, hs, he]
          · constructor
            · intro h
              simp [decode_token, jwt_decode, hs, he] at h
            · rintro ⟨payload2, sig2, heq, hsig2, hexp2⟩
              obtain ⟨h0, h1, h2⟩ := TokenWire.parsed.injEq .. ▸ heq
              rw [← h1] at hexp2
              exact absurd hexp2 he
        · constructor
          · intro h
            simp [decode_token, jwt_decode, hs] at h
          · rintro ⟨payload2, sig2, heq, hsig2, hexp2⟩
            obtain ⟨h0, h1, h2⟩ := TokenWire.parsed.injEq .. ▸ heq
            exact absurd (by rw [h2, h1]; exact hsig2) hs
      · constructor
        · intro h
          simp [decode_token, jwt_decode, ha] at h
        · rintro ⟨payload2, sig2, heq, hsig2, hexp2⟩
          obtain ⟨h0, h1, h2⟩ := TokenWire.parsed.injEq .. ▸ heq
          exact absurd h0 ha
  · cases tok with
    | malformed raw =>
      constructor
      · intro _
        exact Or.inl ⟨raw, rfl⟩
      · intro _
        simp [decode_token, jwt_decode]
    | parsed a payload sig =>
      by_cases ha : a = alg
      · subst ha
        by_cases hs : sig = sign secret a payload
        · constructor
          · intro h
            by_cases he : payload.exp ≤ now <;>
              simp [decode_token, jwt_decode, hs, he] at h
          · rintro (⟨raw, h⟩ | ⟨a2, payload2, sig2, heq, hbad⟩)
            · exact absurd h (by simp)
            · obtain ⟨h0, h1, h2⟩ := TokenWire.parsed.injEq .. ▸ heq
              rcases hbad with hbad | hbad
              · exact absurd h0.symm hbad
              · refine absurd ?_ hbad
                rw [← h2, ← h0, ← h1]
                exact hs
        · constructor
          · intro _
            exact Or.inr ⟨a, payload, sig, rfl, Or.inr hs⟩
          · intro _
            simp [decode_token, jwt_decode, hs]
      · constructor
        · intro _
          exact Or.inr ⟨a, payload, sig, rfl, Or.inl ha⟩
        · intro _
          simp [decode_token, jwt_decode, ha]

/-- C5: no record any store operation hands back to a caller carries the
`password_hash` key — `create_user`'s `RETURNING` clause and the two
lookup SELECTs omit the column, and `authenticate_user` deletes the key
from its row dict before returning it. -/
theorem c5_password_hash_never_returned :
    ∀ (db : DB),
      (∀ (full_name email password newId : String) (salt now : Nat)
          (fault : Option String) (r : RowDict),
        (create_user db full_name email password newId salt now fault).1 = Except.ok r →
        hasKey r "password_hash" = false)
      ∧ (∀ (email password : String) (r : RowDict),
          authenticate_user db email password = some r →
          hasKey r "password_hash" = false)
      ∧ (∀ (user_id : String) (r : RowDict),
          get_user_by_id db user_id = some r →
          hasKey r "password_hash" = false)
      ∧ (∀ (email : String) (r : RowDict),
          get_user_by_email db email = some r →
          hasKey r "password_hash" = false) := by
  intro db
  refine ⟨?_, ?_, ?_, ?_⟩
  · intro full_name email password newId salt now fault r hr
    cases h : findByEmail db (str_lower email) with
    | some u => simp [create_user, h] at hr
    | none =>
      cases fault with
      | some msg => simp [create_user, h] at hr
      | none =>
        simp only [create_user, h] at hr
        obtain ⟨hr⟩ := hr
        rfl
  · intro email password r hr
    cases h : findActiveByEmail db (str_lower email) with
    | none => simp [authenticate_user, h] at hr
    | some u =>
      by_cases hv : verify_password password u.password_hash
      · simp [authenticate_user, h, hv] at hr
        subst hr
        rfl
      · simp [authenticate_user, h, hv] at hr
  · intro user_id r hr
    cases h : findActiveById db user_id with
    | none => simp [get_user_by_id, h] at hr
    | some u =>
      simp [get_user_by_id, h] at hr
      subst hr
      rfl
  · intro email r hr
    cases h : findActiveByEmail db (str_lower email) with
    | none => simp [get_user_by_email, h] at hr
    | some u =>
      simp [get_user_by_email, h] at hr
      subst hr
      rfl

/-- C5 witness: each of the four operations, run on a concrete one-user
store, yields a record without the `password_hash` key. -/
theorem c5_password_hash_never_returned_witness :
    ((create_user (DB.mk []) "Ada" "ada@x.com" "s3cret!" "uid-1" 0 0 none).1
        = Except.ok (rowPublic (UserRow.mk "uid-1" "Ada" "ada@x.com"
            (hash_password 0 "s3cret!") true 0 0))
      ∧ hasKey (rowPublic (UserRow.mk "uid-1" "Ada" "ada@x.com"
            (hash_password 0 "s3cret!") true 0 0)) "password_hash" = false)
    ∧ (authenticate_user (DB.mk [UserRow.mk "uid-1" "Ada" "ada@x.com"
            (hash_password 0 "s3cret!") true 0 0]) "ada@x.com" "s3cret!"
        = some ((rowFull (UserRow.mk "uid-1" "Ada" "ada@x.com"
            (hash_password 0 "s3cret!") true 0 0)).eraseP
              (fun kv => kv.1 == "password_hash"))
      ∧ hasKey ((rowFull (UserRow.mk "uid-1" "Ada" "ada@x.com"
            (hash_password 0 "s3cret!") true 0 0)).eraseP
              (fun kv => kv.1 == "password_hash")) "password_hash" = false)
    ∧ (get_user_by_id (DB.mk [UserRow.mk "uid-1" "Ada" "ada@x.com"
            (hash_password 0 "s3cret!") true 0 0]) "uid-1"
        = some (rowPublic (UserRow.mk "uid-1" "Ada" "ada@x.com"
            (hash_password 0 "s3cret!") true 0 0)))
    ∧ (get_user_by_email (DB.mk [UserRow.mk "uid-1" "Ada" "ada@x.com"
            (hash_password 0 "s3cret!") true 0 0]) "ADA@X.COM"
        = some (rowPublic (UserRow.mk "uid-1" "Ada" "ada@x.com"
            (hash_password 0 "s3cret!") true 0 0))
      ∧ hasKey (rowPublic (UserRow.mk "uid-1" "Ada" "ada@x.com"
            (hash_password 0 "s3cret!") true 0 0)) "password_hash" = false) :=
  ⟨⟨rfl, (c5_password_hash_never_returned (DB.mk [])).1
      "Ada" "ada@x.com" "s3cret!" "uid-1" 0 0 none _ rfl⟩,
   ⟨rfl, (c5_password_hash_never_returned (DB.mk [UserRow.mk "uid-1" "Ada" "ada@x.com"
        (hash_password 0 "s3cret!") true 0 0])).2.1 "ada@x.com" "s3cret!" _ rfl⟩,
   rfl,
   ⟨rfl, (c5_password_hash_never_returned (DB.mk [UserRow.mk "uid-1" "Ada" "ada@x.com"
        (hash_password 0 "s3cret!") true 0 0])).2.2.2 "ADA@X.COM" _ rfl⟩⟩

/-- C6: `authenticate_user`, `get_user_by_id` and `get_user_by_email` only
ever return a row whose `is_active` flag is true (their WHERE clauses
demand `is_active = TRUE`); hence `get_current_user` answers 401 for a
still-unexpired, correctly signed token whose user rows are all inactive,
just as it answers 401 for a malformed token. -/
theorem c6_inactive_users_invisible :
    (∀ (db : DB) (email password : String) (r : RowDict),
      authenticate_user db email password = some r →
      ∃ u ∈ db.users, u.is_active = true
        ∧ r = (rowFull u).eraseP (fun kv => kv.1 == "password_hash"))
    ∧ (∀ (db : DB) (user_id : String) (r : RowDict),
        get_user_by_id db user_id = some r →
        ∃ u ∈ db.users, u.is_active = true ∧ r = rowPublic u)
    ∧ (∀ (db : DB) (email : String) (r : RowDict),
        get_user_by_email db email = some r →
        ∃ u ∈ db.users, u.is_active = true ∧ r = rowPublic u)
    ∧ (∀ (db : DB) (secret : Nat) (alg : String) (now : Nat) (payload : Claims),
        (∀ u ∈ db.users, u.id = payload.user_id → u.is_active = false) →
        now < payload.exp →
        ∃ d, get_current_user db (jwt_encode payload secret alg) secret alg now
              = HttpOutcome.error 401 d)
    ∧ (∀ (db : DB) (secret : Nat) (alg : String) (now : Nat) (raw : String),
        get_current_user db (TokenWire.malformed raw) secret alg now
          = HttpOutcome.error 401 "Invalid token") := by
  refine ⟨?_, ?_, ?_, ?_, fun db secret alg now raw => rfl⟩
  · intro db email password r hr
    cases h : findActiveByEmail db (str_lower email) with
    | none => simp [authenticate_user, h] at hr
    | some u =>
      by_cases hv : verify_password password u.password_hash
      · simp [authenticate_user, h, hv] at hr
        have hact : u.is_active = true := by
          have := List.find?_some h
          simp only [Bool.and_eq_true, beq_iff_eq] at this
          exact this.2
        exact ⟨u, List.mem_of_find?_eq_some h, hact, hr.symm⟩
      · simp [authenticate_user, h, hv] at hr
  · intro db user_id r hr
    cases h : findActiveById db user_id with
    | none => simp [get_user_by_id, h] at hr
    | some u =>
      simp [get_user_by_id, h] at hr
      have hact : u.is_active = true := by
        have := List.find?_some h
        simp only [Bool.and_eq_true, beq_iff_eq] at this
        exact this.2
      exact ⟨u, List.mem_of_find?_eq_some h, hact, hr.symm⟩
  · intro db email r hr
    cases h : findActiveByEmail db (str_lower email) with
    | none => simp [get_user_by_email, h] at hr
    | some u =>
      simp [get_user_by_email, h] at hr
      have hact : u.is_active = true := by
        have := List.find?_some h
        simp only [Bool.and_eq_true, beq_iff_eq] at this
        exact this.2
      exact ⟨u, List.mem_of_find?_eq_some h, hact, hr.symm⟩
  · intro db secret alg now payload hinact hexp
    have hdec : decode_token (jwt_encode payload secret alg) secret alg now
        = Except.ok payload := by
      simp [decode_token, jwt_encode, jwt_decode, Nat.not_le.mpr hexp]
    by_cases hid : (payload.user_id == "") = true
    · exact ⟨"Authentication failed", by simp [get_current_user, hdec, hid]⟩
    · have hfind : findActiveById db payload.user_id = none := by
        apply List.find?_eq_none.mpr
        intro u hu
        simp only [Bool.and_eq_true, beq_iff_eq, not_and]
        intro hidu
        simp [hinact u hu hidu]
      refine ⟨"Authentication failed", ?_⟩
      simp [get_current_user, hdec, hid, get_user_by_id, hfind]

/-- C6 witness: a lookup on an active account succeeds and indeed exhibits
an active row, while a valid, unexpired token naming a deactivated account
resolves to a 401. -/
theorem c6_inactive_users_invisible_witness :
    (get_user_by_id (DB.mk [UserRow.mk "uid-1" "Ada" "ada@x.com"
          (hash_password 0 "s3cret!") true 0 0]) "uid-1"
        = some (rowPublic (UserRow.mk "uid-1" "Ada" "ada@x.com"
          (hash_password 0 "s3cret!") true 0 0))
      ∧ ∃ u ∈ (DB.mk [UserRow.mk "uid-1" "Ada" "ada@x.com"
            (hash_password 0 "s3cret!") true 0 0]).users, u.is_active = true
          ∧ rowPublic (UserRow.mk "uid-1" "Ada" "ada@x.com"
              (hash_password 0 "s3cret!") true 0 0) = rowPublic u)
    ∧ ((∀ u ∈ (DB.mk [UserRow.mk "uid-1" "Ada" "ada@x.com"
            (hash_password 0 "s3cret!") false 0 0]).users,
          u.id = (Claims.mk "uid-1" "ada@x.com" 0 100 "access").user_id →
          u.is_active = false)
      ∧ (0 : Nat) < (Claims.mk "uid-1" "ada@x.com" 0 100 "access").exp
      ∧ ∃ d, get_current_user (DB.mk [UserRow.mk "uid-1" "Ada" "ada@x.com"
            (hash_password 0 "s3cret!") false 0 0])
          (jwt_encode (Claims.mk "uid-1" "ada@x.com" 0 100 "access") 7 "HS256")
          7 "HS256" 0 = HttpOutcome.error 401 d) :=
  ⟨⟨rfl, c6_inactive_users_invisible.2.1 (DB.mk [UserRow.mk "uid-1" "Ada" "ada@x.com"
      (hash_password 0 "s3cret!") true 0 0]) "uid-1" _ rfl⟩,
   ⟨by decide, by decide,
    c6_inactive_users_invisible.2.2.2.1 (DB.mk [UserRow.mk "uid-1" "Ada" "ada@x.com"
        (hash_password 0 "s3cret!") false 0 0]) 7 "HS256" 0
      (Claims.mk "uid-1" "ada@x.com" 0 100 "access") (by decide) (by decide)⟩⟩

/-- C7: a successful `create_user` stores (and returns) the lowercased
email and the whitespace-trimmed full name; moreover, a token issued for
the new user id and stored email, when resolved against the post-insert
store, yields exactly the new user's public profile, whose email field is
the lowercased input email. -/
theorem c7_registration_normalizes :
    ∀ (db : DB) (full_name email password newId : String) (salt now : Nat)
      (r : RowDict) (db2 : DB) (secret : Nat) (alg : String) (mins : Nat),
      create_user db full_name email password newId salt now none = (Except.ok r, db2) →
      newId ≠ "" →
      (∀ u ∈ db.users, u.id ≠ newId) →
      0 < mins →
      ∃ row, db2.users = db.users ++ [row]
        ∧ row.email = str_lower email
        ∧ row.full_name = str_strip full_name
        ∧ lookupVal r "email" = some (Val.s (str_lower email))
        ∧ get_current_user db2
            (create_access_token newId row.email secret alg mins now).access_token
            secret alg now = HttpOutcome.ok (rowPublic row)
        ∧ lookupVal (rowPublic row) "email" = some (Val.s (str_lower email)) := by
  intro db full_name email password newId salt now r db2 secret alg mins
    hcreate hid hfresh hmins
  cases h : findByEmail db (str_lower email) with
  | some u => simp [create_user, h] at hcreate
  | none =>
    simp only [create_user, h] at hcreate
    obtain ⟨h1, h2⟩ := Prod.mk.injEq .. ▸ hcreate
    have hr : rowPublic (UserRow.mk newId (str_strip full_name) (str_lower email)
        (hash_password salt password) true now now) = r :=
      Except.ok.injEq .. ▸ h1
    refine ⟨UserRow.mk newId (str_strip full_name) (str_lower email)
        (hash_password salt password) true now now,
      congrArg DB.users h2.symm, rfl, rfl, ?_, ?_, rfl⟩
    · rw [← hr]
      rfl
    · have hdec : decode_token (jwt_encode (Claims.mk newId (str_lower email) now
          (now + mins * 60) "access") secret alg) secret alg now
          = Except.ok (Claims.mk newId (str_lower email) now (now + mins * 60) "access") := by
        have hlt : now < now + mins * 60 := by omega
        simp [decode_token, jwt_encode, jwt_decode, Nat.not_le.mpr hlt]
      have hnone : db.users.find? (fun u => u.id == newId && u.is_active) = none :=
        List.find?_eq_none.mpr (fun u hu => by simp [hfresh u hu])
      have hfind : findActiveById db2 newId
          = some (UserRow.mk newId (str_strip full_name) (str_lower email)
              (hash_password salt password) true now now) := by
        rw [← h2]
        show (db.users ++ [_]).find? _ = _
        rw [find?_append_of_none hnone]
        exact List.find?_cons_of_pos _ (by simp)
      simp [create_access_token, get_current_user, hdec,
        beq_eq_false_iff_ne.mpr hid, get_user_by_id, hfind]

/-- C7 witness: the concrete Ada scenario — registering
full_name "  Ada Lovelace ", email "ADA@X.COM", password "s3cret!" stores
email "ada@x.com" and name "Ada Lovelace", and resolving the issued token
returns the profile with email "ada@x.com". -/
theorem c7_registration_normalizes_witness :
    (create_user (DB.mk []) "  Ada Lovelace " "ADA@X.COM" "s3cret!" "uid-1" 0 0 none
        = (Except.ok (rowPublic (UserRow.mk "uid-1" "Ada Lovelace" "ada@x.com"
            (hash_password 0 "s3cret!") true 0 0)),
           DB.mk [UserRow.mk "uid-1" "Ada Lovelace" "ada@x.com"
            (hash_password 0 "s3cret!") true 0 0]))
    ∧ ("uid-1" : String) ≠ ""
    ∧ (∀ u ∈ (DB.mk []).users, u.id ≠ "uid-1")
    ∧ (0 : Nat) < 30
    ∧ ∃ row, (DB.mk [UserRow.mk "uid-1" "Ada Lovelace" "ada@x.com"
          (hash_password 0 "s3cret!") true 0 0]).users = (DB.mk []).users ++ [row]
        ∧ row.email = str_lower "ADA@X.COM"
        ∧ row.full_name = str_strip "  Ada Lovelace "
        ∧ lookupVal (rowPublic (UserRow.mk "uid-1" "Ada Lovelace" "ada@x.com"
            (hash_password 0 "s3cret!") true 0 0)) "email"
            = some (Val.s (str_lower "ADA@X.COM"))
        ∧ get_current_user (DB.mk [UserRow.mk "uid-1" "Ada Lovelace" "ada@x.com"
              (hash_password 0 "s3cret!") true 0 0])
            (create_access_token "uid-1" row.email 7 "HS256" 30 0).access_token
            7 "HS256" 0 = HttpOutcome.ok (rowPublic row)
        ∧ lookupVal (rowPublic row) "email" = some (Val.s (str_lower "ADA@X.COM")) :=
  ⟨by rfl, by decide, by decide, by decide,
   c7_registration_normalizes (DB.mk []) "  Ada Lovelace " "ADA@X.COM" "s3cret!"
     "uid-1" 0 0
     (rowPublic (UserRow.mk "uid-1" "Ada Lovelace" "ada@x.com"
       (hash_password 0 "s3cret!") true 0 0))
     (DB.mk [UserRow.mk "uid-1" "Ada Lovelace" "ada@x.com"
       (hash_password 0 "s3cret!") true 0 0])
     7 "HS256" 30 (by rfl) (by decide) (by decide) (by decide)⟩

/-- C8: whenever `create_user` ends in an error — the duplicate-email
`ValueError` or an injected failure of the INSERT statement (raised after
the password hash has already been computed) — the `except` branch rolls
the transaction back before re-raising, so the `users` table after the
call is exactly the table before it. -/
theorem c8_create_user_rolls_back :
    ∀ (db : DB) (full_name email password newId : String) (salt now : Nat)
      (fault : Option String) (e : String),
      (create_user db full_name email password newId salt now fault).1
          = Except.error e →
      (create_user db full_name email password newId salt now fault).2 = db := by
  intro db full_name email password newId salt now fault e herr
  cases h : findByEmail db (str_lower email) with
  | some u => simp [create_user, h]
  | none =>
    cases fault with
    | some msg => simp [create_user, h]
    | none => simp [create_user, h] at herr

/-- C8 witness: an INSERT failure injected after the hash is computed (the
email is new, so the duplicate check passes) propagates the error and
leaves the empty table empty. -/
theorem c8_create_user_rolls_back_witness :
    ((create_user (DB.mk []) "Ada" "ada@x.com" "s3cret!" "uid-1" 0 0
        (some "unique violation")).1 = Except.error "unique violation")
    ∧ (create_user (DB.mk []) "Ada" "ada@x.com" "s3cret!" "uid-1" 0 0
        (some "unique violation")).2 = DB.mk [] :=
  ⟨rfl, c8_create_user_rolls_back (DB.mk []) "Ada" "ada@x.com" "s3cret!"
    "uid-1" 0 0 (some "unique violation") "unique violation" rfl⟩

/-- C9: the claim is FALSE for `Database.init_tables`: its body runs in a
bare `try`/`except` with no `finally`, so when the DDL `execute` (or the
commit) raises, the acquired connection is never returned to the pool and
the trace stays unbalanced.  The four `UserService` operations do return
their connection on every path via `try`/`finally`.  The spec's
guaranteed-release requirement, honoured everywhere else, marks the
missing `finally` in `init_tables` as a code slip. -/
theorem c9_connection_release :
    balanced (init_tables_trace true) = false
      ∧ balanced (init_tables_trace false) = true
      ∧ ∀ (bodyRaises : Bool),
          balanced (user_service_op_trace bodyRaises) = true := by
  refine ⟨by decide, by decide, ?_⟩
  intro b
  cases b <;> decide

/-- C10: the duplicate-email check `SELECT id FROM users WHERE email = %s`
has no `is_active` filter, so a deactivated row with the same normalized
email still makes `create_user` fail with "Email already registered" and
leaves the table unchanged. -/
theorem c10_duplicate_check_ignores_is_active :
    ∀ (db : DB) (full_name email password newId : String) (salt now : Nat)
      (fault : Option String) (u : UserRow),
      u ∈ db.users → u.is_active = false → u.email = str_lower email →
      (create_user db full_name email password newId salt now fault).1
          = Except.error "Email already registered"
        ∧ (create_user db full_name email password newId salt now fault).2 = db := by
  intro db full_name email password newId salt now fault u hu hinact hmail
  have hsome : (findByEmail db (str_lower email)).isSome := by
    apply List.find?_isSome.mpr
    exact ⟨u, hu, by simp [hmail]⟩
  obtain ⟨v, hv⟩ := Option.isSome_iff_exists.mp hsome
  exact ⟨by simp [create_user, hv], by simp [create_user, hv]⟩

/-- C10 witness: a store whose only row for ada@x.com is deactivated still
rejects a new registration under that email. -/
theorem c10_duplicate_check_ignores_is_active_witness :
    (UserRow.mk "uid-1" "Ada" "ada@x.com" (hash_password 0 "s3cret!") false 0 0
        ∈ (DB.mk [UserRow.mk "uid-1" "Ada" "ada@x.com"
            (hash_password 0 "s3cret!") false 0 0]).users)
    ∧ (UserRow.mk "uid-1" "Ada" "ada@x.com"
        (hash_password 0 "s3cret!") false 0 0).is_active = false
    ∧ (UserRow.mk "uid-1" "Ada" "ada@x.com"
        (hash_password 0 "s3cret!") false 0 0).email = str_lower "ADA@X.COM"
    ∧ (create_user (DB.mk [UserRow.mk "uid-1" "Ada" "ada@x.com"
          (hash_password 0 "s3cret!") false 0 0])
        "Ada Again" "ADA@X.COM" "new-password" "uid-2" 1 9 none).1
        = Except.error "Email already registered"
    ∧ (create_user (DB.mk [UserRow.mk "uid-1" "Ada" "ada@x.com"
          (hash_password 0 "s3cret!") false 0 0])
        "Ada Again" "ADA@X.COM" "new-password" "uid-2" 1 9 none).2
        = DB.mk [UserRow.mk "uid-1" "Ada" "ada@x.com"
            (hash_password 0 "s3cret!") false 0 0] := by
  refine ⟨by decide, by decide, by decide, ?_, ?_⟩
  · exact (c10_duplicate_check_ignores_is_active
      (DB.mk [UserRow.mk "uid-1" "Ada" "ada@x.com"
        (hash_password 0 "s3cret!") false 0 0])
      "Ada Again" "ADA@X.COM" "new-password" "uid-2" 1 9 none
      (UserRow.mk "uid-1" "Ada" "ada@x.com" (hash_password 0 "s3cret!") false 0 0)
      (by decide) (by decide) (by decide)).1
  · exact (c10_duplicate_check_ignores_is_active
      (DB.mk [UserRow.mk "uid-1" "Ada" "ada@x.com"
        (hash_password 0 "s3cret!") false 0 0])
      "Ada Again" "ADA@X.COM" "new-password" "uid-2" 1 9 none
      (UserRow.mk "uid-1" "Ada" "ada@x.com" (hash_password 0 "s3cret!") false 0 0)
      (by decide) (by decide) (by decide)).2

end AuthCore
